import Mathlib

/-!
Verification of the MegaMobilier quoting front end.

The repository is a single React page (two revisions: the earlier
src/pages/index.tsx and the later src/unnamed/part_000). All of the
behaviour under verification is pure state manipulation inside event
handlers, so we embed the component state as an explicit structure and
each handler as a pure function. External effects are made explicit:
the HTTP response to a quote submission is a parameter, microphone
permission is a Bool parameter, PDF rasterization success is an Except
parameter, and the list of issued POST bodies is returned alongside the
new state.

JavaScript numbers never participate in arithmetic in this code (they
are only displayed), so they are modelled as rationals.
-/

/-- The InputFormat union type: "text" | "image" | "audio". -/
inductive InputFormat where
  | text
  | image
  | audio
deriving DecidableEq, Repr

/-- The Producto interface of the catalog. -/
structure Producto where
  id : String
  nombre : String
  categoria : String
  precio : Rat
  descripcion : Option String
deriving DecidableEq, Repr

/-- The CatalogoResponse interface returned by GET /catalogo. -/
structure CatalogoResponse where
  total : Rat
  categorias : List String
  productos : List Producto
deriving DecidableEq, Repr

/-- One line item of a CotizacionResponse. -/
structure CotizacionItem where
  nombre : String
  cantidad : Rat
  precioUnitario : Rat
  subtotal : Rat
deriving DecidableEq, Repr

/-- The optional debug block of a CotizacionResponse. -/
structure CotizacionDebug where
  textoInterpretado : String
  formatoProcesado : String
deriving DecidableEq, Repr

/-- The CotizacionResponse interface returned by POST /cotizar on success. -/
structure CotizacionResponse where
  cliente : String
  fecha : String
  items : List CotizacionItem
  subtotal : Rat
  iva : Rat
  total : Rat
  debug : Option CotizacionDebug
deriving DecidableEq, Repr

/-- The component state of the Home page: every useState hook, plus the
mutable refs that carry recording data in the later revision
(audioChunks models audioChunksRef as the list of captured chunk byte
sizes, intervalActive models whether recordingIntervalRef holds a live
interval, mediaRecorderPresent models whether mediaRecorderRef is set).
The earlier revision uses the subset of these fields that it declares;
its handlers never read or write the recording/PDF-flag fields. -/
structure HomeState where
  catalogo : Option CatalogoResponse
  categoriaActiva : String
  loadingCatalogo : Bool
  formato : InputFormat
  nombre : String
  email : String
  ciudad : String
  textoRequerimiento : String
  archivoBase64 : String
  nombreArchivo : String
  loading : Bool
  resultado : Option CotizacionResponse
  error : String
  generatingPDF : Bool
  isRecording : Bool
  recordingTime : Nat
  audioChunks : List Nat
  intervalActive : Bool
  mediaRecorderPresent : Bool
deriving DecidableEq, Repr

/-- The initial state given by the useState initial values. -/
def initState : HomeState where
  catalogo := none
  categoriaActiva := "todas"
  loadingCatalogo := true
  formato := InputFormat.text
  nombre := ""
  email := ""
  ciudad := ""
  textoRequerimiento := ""
  archivoBase64 := ""
  nombreArchivo := ""
  loading := false
  resultado := none
  error := ""
  generatingPDF := false
  isRecording := false
  recordingTime := 0
  audioChunks := []
  intervalActive := false
  mediaRecorderPresent := false

/-- The POST /cotizar body of the later revision (part_000): every field
is sent as a plain string, with empty nombre/email/ciudad replaced by
"No indicado". -/
structure CotizarBody where
  nombre : String
  requerimiento : String
  formato : InputFormat
  email : String
  ciudad : String
  ingresoFecha : String
deriving DecidableEq, Repr

/-- The POST /cotizar body of the earlier revision (index.tsx): email and
ciudad are sent as undefined when empty, modelled as Option. -/
structure CotizarBodyV1 where
  nombre : String
  requerimiento : String
  formato : InputFormat
  email : Option String
  ciudad : Option String
  ingresoFecha : String
deriving DecidableEq, Repr

/-- The JSON-parsed HTTP response to POST /cotizar: the ok flag
(2xx status), the optional mensaje field of the body, and the body read
as a CotizacionResponse (only consulted when ok). Network failures and
JSON parse failures are outside this model; the verified claims concern
responses whose body parsed as JSON. -/
structure CotizarHttpResponse where
  ok : Bool
  mensaje : Option String
  parsed : CotizacionResponse
deriving DecidableEq, Repr

/-- productosFiltrados (identical in both revisions):
catalogo?.productos.filter(p => categoriaActiva === "todas" || p.categoria === categoriaActiva) || []. -/
def productosFiltradosOf (catalogo : Option CatalogoResponse) (categoriaActiva : String) :
    List Producto :=
  match catalogo with
  | none => []
  | some c =>
      c.productos.filter (fun p => categoriaActiva == "todas" || p.categoria == categoriaActiva)

/-- The empty-list message guard (both revisions):
productosFiltrados.length === 0 renders the no-products paragraph. -/
def noProductosShown (filtrados : List Producto) : Bool :=
  filtrados.length == 0

/-- fetchCatalogo (identical in both revisions): the fetch-and-parse
outcome is the Except parameter. On success the parsed data is stored;
on failure the error is only written to the console (returned as the
list of console.error messages) and no state other than the loading
flag changes. -/
def fetchCatalogo (result : Except String CatalogoResponse) (s : HomeState) :
    HomeState × List String :=
  match result with
  | Except.ok data => ({ s with catalogo := some data, loadingCatalogo := false }, [])
  | Except.error _ =>
      ({ s with loadingCatalogo := false }, ["Error cargando catalogo:"])

/-- The modality tab onClick handler (identical in both revisions):
setFormato(f); setArchivoBase64(""); setNombreArchivo(""); setTextoRequerimiento(""). -/
def switchFormato (f : InputFormat) (s : HomeState) : HomeState :=
  { s with formato := f, archivoBase64 := "", nombreArchivo := "", textoRequerimiento := "" }

/-- resetForm (identical in both revisions). -/
def resetForm (s : HomeState) : HomeState :=
  { s with formato := InputFormat.text, textoRequerimiento := "", archivoBase64 := "",
           nombreArchivo := "", resultado := none, error := "" }

/-- Auxiliary for the regex replace(/\s+/g, "_"): the Bool flag records
whether the previous character was part of a whitespace run already
replaced. -/
def collapseWSAux : Bool → List Char → List Char
  | _, [] => []
  | inRun, c :: rest =>
      if c.isWhitespace then
        if inRun then collapseWSAux true rest
        else '_' :: collapseWSAux true rest
      else c :: collapseWSAux false rest

/-- cliente.replace(/\s+/g, "_"): every maximal whitespace run becomes a
single underscore. -/
def collapseWS (str : String) : String :=
  String.mk (collapseWSAux false str.toList)

/-- The PDF file name of the later revision:
resultado.cliente?.replace(/\s+/g, "_") || "Cliente", interpolated into
a Cotizacion_..._date.pdf template; today stands for
new Date().toISOString().split("T")[0]. -/
def pdfFileName (cliente : String) (today : String) : String :=
  let clienteName := if collapseWS cliente = "" then "Cliente" else collapseWS cliente
  "Cotizacion_" ++ clienteName ++ "_" ++ today ++ ".pdf"

/-- handleDownloadPDF of the later revision (part_000). refPresent models
cotizacionRef.current being non-null; render models the awaited
html2canvas/jsPDF work, which either produces the page or throws. The
second component is the file name passed to pdf.save, none when no save
happened. On a thrown exception the catch block sets the generic error
message and the finally block clears the generatingPDF flag. -/
def handleDownloadPDF (refPresent : Bool) (render : Except String Unit) (today : String)
    (s : HomeState) : HomeState × Option String :=
  match refPresent, s.resultado with
  | false, _ => (s, none)
  | true, none => (s, none)
  | true, some r =>
      let s1 := { s with generatingPDF := true }
      match render with
      | Except.ok _ =>
          ({ s1 with generatingPDF := false }, some (pdfFileName r.cliente today))
      | Except.error _ =>
          ({ s1 with generatingPDF := false,
                     error := "Error al generar el PDF. Intenta de nuevo." }, none)

/-- The PDF file name of the earlier revision (index.tsx):
resultado.cliente.replace(/\s+/g, "_") with no fallback for an empty
client name. -/
def pdfFileNameV1 (cliente : String) (today : String) : String :=
  "Cotizacion_" ++ collapseWS cliente ++ "_" ++ today ++ ".pdf"

/-- handleDownloadPDF of the earlier revision (index.tsx). There is no
try/catch: when the rasterization step throws, the exception escapes
the handler as an unhandled rejection, modelled as the Except.error
result; no state update and no save happen in that case. -/
def handleDownloadPDFV1 (refPresent : Bool) (render : Except String Unit) (today : String)
    (s : HomeState) : Except String (HomeState × Option String) :=
  match refPresent, s.resultado with
  | false, _ => Except.ok (s, none)
  | true, none => Except.ok (s, none)
  | true, some r =>
      match render with
      | Except.ok _ => Except.ok (s, some (pdfFileNameV1 r.cliente today))
      | Except.error e => Except.error e

/-- startRecording of the later revision (part_000). micAccess models the
outcome of navigator.mediaDevices.getUserMedia: when it rejects, the
catch block only sets the error message; when it resolves, a recorder is
created, the chunk ref is reset to empty, recording starts, the elapsed
counter restarts at 0 and the 1-second interval is installed. -/
def startRecording (micAccess : Bool) (s : HomeState) : HomeState :=
  if micAccess then
    { s with mediaRecorderPresent := true, audioChunks := [],
             isRecording := true, recordingTime := 0, intervalActive := true }
  else
    { s with error := "No se pudo acceder al microfono. Verifica los permisos." }

/-- Auxiliary for jsTrim: drop the leading whitespace characters. -/
def dropLeadingWS : List Char → List Char
  | [] => []
  | c :: rest => if c.isWhitespace then dropLeadingWS rest else c :: rest

/-- Model of String.prototype.trim: remove leading and trailing
whitespace. The source only ever tests the truthiness of a trimmed
string, i.e. whether it is empty. -/
def jsTrim (s : String) : String :=
  String.mk (dropLeadingWS (dropLeadingWS s.toList.reverse).reverse)

/-- data.mensaje || "Error en la solicitud": JavaScript || falls through
to the fallback when the field is absent or the empty string. -/
def mensajeOrFallback (mensaje : Option String) : String :=
  match mensaje with
  | some m => if m = "" then "Error en la solicitud" else m
  | none => "Error en la solicitud"

/-- The requerimiento validation shared by both revisions of
handleSubmit: text mode requires a non-blank textoRequerimiento (sent
untrimmed), image/audio modes require a non-empty archivoBase64; the
error strings are the setError arguments of the source. -/
def validateRequerimiento (s : HomeState) : Except String String :=
  match s.formato with
  | InputFormat.text =>
      if jsTrim s.textoRequerimiento = "" then Except.error "Escribe tu requerimiento"
      else Except.ok s.textoRequerimiento
  | InputFormat.image =>
      if s.archivoBase64 = "" then Except.error "Selecciona un archivo de imagen"
      else Except.ok s.archivoBase64
  | InputFormat.audio =>
      if s.archivoBase64 = "" then Except.error "Selecciona un archivo de audio"
      else Except.ok s.archivoBase64

/-- handleSubmit of the later revision (part_000). resp is the
JSON-parsed POST /cotizar response, now is new Date().toISOString().
Returns the final state together with the list of POST bodies issued.
On validation failure only the error message is set and no request goes
out; otherwise the state first passes through setError("") /
setLoading(true) / setResultado(null), the single request is issued
with empty nombre/email/ciudad replaced by "No indicado", and the
response is handled: non-ok throws Error(data.mensaje || fallback),
caught into setError, with setLoading(false) in the finally block. -/
def handleSubmit (s : HomeState) (resp : CotizarHttpResponse) (now : String) :
    HomeState × List CotizarBody :=
  match validateRequerimiento s with
  | Except.error msg => ({ s with error := msg }, [])
  | Except.ok requerimiento =>
      let s1 := { s with error := "", loading := true, resultado := none }
      let body : CotizarBody :=
        { nombre := if s.nombre = "" then "No indicado" else s.nombre
          requerimiento := requerimiento
          formato := s.formato
          email := if s.email = "" then "No indicado" else s.email
          ciudad := if s.ciudad = "" then "No indicado" else s.ciudad
          ingresoFecha := now }
      if resp.ok then
        ({ s1 with resultado := some resp.parsed, loading := false }, [body])
      else
        ({ s1 with error := mensajeOrFallback resp.mensaje, loading := false }, [body])

/-- handleSubmit of the earlier revision (index.tsx). It additionally
requires a non-blank nombre before any other validation, and sends
email/ciudad as undefined (none) when empty. -/
def handleSubmitV1 (s : HomeState) (resp : CotizarHttpResponse) (now : String) :
    HomeState × List CotizarBodyV1 :=
  if jsTrim s.nombre = "" then ({ s with error := "El nombre es requerido" }, [])
  else
    match validateRequerimiento s with
    | Except.error msg => ({ s with error := msg }, [])
    | Except.ok requerimiento =>
        let s1 := { s with error := "", loading := true, resultado := none }
        let body : CotizarBodyV1 :=
          { nombre := s.nombre
            requerimiento := requerimiento
            formato := s.formato
            email := if s.email = "" then none else some s.email
            ciudad := if s.ciudad = "" then none else some s.ciudad
            ingresoFecha := now }
        if resp.ok then
          ({ s1 with resultado := some resp.parsed, loading := false }, [body])
        else
          ({ s1 with error := mensajeOrFallback resp.mensaje, loading := false }, [body])

/-- A concrete quotation used by concrete-input instantiations. -/
def wQuote : CotizacionResponse where
  cliente := "Ana Perez"
  fecha := "2026-01-01"
  items := [{ nombre := "Silla", cantidad := 5, precioUnitario := 10, subtotal := 50 }]
  subtotal := 50
  iva := 10
  total := 60
  debug := none

/-- A concrete non-2xx response whose body carries a mensaje field. -/
def wRespFail : CotizarHttpResponse where
  ok := false
  mensaje := some "Formato invalido"
  parsed := wQuote

/-- A concrete form state: text modality with a typed requirement. -/
def wStateText : HomeState :=
  { initState with textoRequerimiento := "Necesito 5 sillas", nombre := "Ana" }

/-- A concrete ingresoFecha timestamp. -/
def wNow : String := "2026-01-01T00:00:00.000Z"

/-- A concrete form state: image modality with no captured payload. -/
def wStateImage : HomeState :=
  { initState with formato := InputFormat.image, nombre := "Ana" }

/-- A concrete state currently rendering a quotation. -/
def wStateResult : HomeState := { initState with resultado := some wQuote }

/-- A concrete form state: text modality with a typed requirement and
empty nombre, email and ciudad. -/
def wStateNoName : HomeState := { initState with textoRequerimiento := "Necesito 5 sillas" }

/-- Claim C4: switching the modality tab clears the typed requirement
text, the base64 payload and the stored file name, and applying the
same switch twice gives the same state as applying it once. -/
theorem switchFormato_clears_and_idempotent (s : HomeState) (f : InputFormat) :
    (switchFormato f s).textoRequerimiento = "" ∧
    (switchFormato f s).archivoBase64 = "" ∧
    (switchFormato f s).nombreArchivo = "" ∧
    switchFormato f (switchFormato f s) = switchFormato f s :=
  ⟨rfl, rfl, rfl, rfl⟩

/-- Claim C5: with a fetched catalog, the active value "todas" displays
the full product list and any other value displays exactly the products
whose categoria equals it, in original order; the no-products message
is rendered exactly when the resulting list is empty. -/
theorem productosFiltrados_spec (c : CatalogoResponse) (cat : String) :
    productosFiltradosOf (some c) cat =
      (if cat = "todas" then c.productos
       else c.productos.filter (fun p => p.categoria == cat)) ∧
    (noProductosShown (productosFiltradosOf (some c) cat) = true ↔
      productosFiltradosOf (some c) cat = []) := by
  constructor
  · by_cases h : cat = "todas"
    · subst h
      simp [productosFiltradosOf]
    · have hb : (cat == "todas") = false := beq_eq_false_iff_ne.mpr h
      simp [productosFiltradosOf, h, hb]
  · simp [noProductosShown, List.length_eq_zero]

/-- Claim C9: resetForm restores text modality and clears the typed
requirement, the base64 payload, the file name, the quotation result
and the error message, leaving nombre, email and ciudad unchanged. -/
theorem resetForm_spec (s : HomeState) :
    (resetForm s).formato = InputFormat.text ∧
    (resetForm s).textoRequerimiento = "" ∧
    (resetForm s).archivoBase64 = "" ∧
    (resetForm s).nombreArchivo = "" ∧
    (resetForm s).resultado = none ∧
    (resetForm s).error = "" ∧
    (resetForm s).nombre = s.nombre ∧
    (resetForm s).email = s.email ∧
    (resetForm s).ciudad = s.ciudad :=
  ⟨rfl, rfl, rfl, rfl, rfl, rfl, rfl, rfl, rfl⟩

/-- In text modality with a non-blank typed requirement, validation
succeeds and passes the typed text through untrimmed. -/
theorem validateRequerimiento_text_ok (s : HomeState)
    (hfmt : s.formato = InputFormat.text) (htext : jsTrim s.textoRequerimiento ≠ "") :
    validateRequerimiento s = Except.ok s.textoRequerimiento := by
  unfold validateRequerimiento
  rw [hfmt]
  simp [htext]

/-- Claim C1: in text modality with a non-blank typed requirement (and,
in the earlier revision, a non-blank name), handleSubmit issues exactly
one POST whose body has formato text and requerimiento equal to the
typed text, unmodified. -/
theorem submitText_issues_single_post (s : HomeState) (resp : CotizarHttpResponse) (now : String)
    (hfmt : s.formato = InputFormat.text) (htext : jsTrim s.textoRequerimiento ≠ "") :
    (∃ b, (handleSubmit s resp now).2 = [b] ∧
      b.formato = InputFormat.text ∧ b.requerimiento = s.textoRequerimiento) ∧
    (jsTrim s.nombre ≠ "" →
      ∃ b, (handleSubmitV1 s resp now).2 = [b] ∧
        b.formato = InputFormat.text ∧ b.requerimiento = s.textoRequerimiento) := by
  have hval := validateRequerimiento_text_ok s hfmt htext
  constructor
  · cases hok : resp.ok <;> simp [handleSubmit, hval, hok, hfmt]
  · intro hn
    have hn' : ¬ jsTrim s.nombre = "" := hn
    cases hok : resp.ok <;> simp [handleSubmitV1, hn', hval, hok, hfmt]

/-- Concrete instantiation of submitText_issues_single_post. -/
theorem submitText_witness :
    (wStateText.formato = InputFormat.text ∧ jsTrim wStateText.textoRequerimiento ≠ "" ∧
      jsTrim wStateText.nombre ≠ "") ∧
    (∃ b, (handleSubmit wStateText wRespFail wNow).2 = [b] ∧
      b.formato = InputFormat.text ∧ b.requerimiento = wStateText.textoRequerimiento) ∧
    (∃ b, (handleSubmitV1 wStateText wRespFail wNow).2 = [b] ∧
      b.formato = InputFormat.text ∧ b.requerimiento = wStateText.textoRequerimiento) := by
  refine ⟨⟨rfl, by decide, by decide⟩, ?_, ?_⟩
  · exact (submitText_issues_single_post wStateText wRespFail wNow rfl (by decide)).1
  · exact (submitText_issues_single_post wStateText wRespFail wNow rfl (by decide)).2 (by decide)

/-- Claim C2: with a blank trimmed text in text modality, or no captured
base64 payload in image/audio modality, handleSubmit sets a non-empty
validation error message, issues no request, and leaves the quotation
result unchanged (both revisions). -/
theorem blank_input_blocks_submit (s : HomeState) (resp : CotizarHttpResponse) (now : String)
    (h : (s.formato = InputFormat.text ∧ jsTrim s.textoRequerimiento = "") ∨
         (s.formato ≠ InputFormat.text ∧ s.archivoBase64 = "")) :
    ((handleSubmit s resp now).2 = [] ∧
     (handleSubmit s resp now).1.resultado = s.resultado ∧
     (handleSubmit s resp now).1.error ≠ "") ∧
    ((handleSubmitV1 s resp now).2 = [] ∧
     (handleSubmitV1 s resp now).1.resultado = s.resultado ∧
     (handleSubmitV1 s resp now).1.error ≠ "") := by
  have hval : ∃ msg, validateRequerimiento s = Except.error msg ∧ msg ≠ "" := by
    rcases h with ⟨hfmt, htext⟩ | ⟨hfmt, hfile⟩
    · refine ⟨"Escribe tu requerimiento", ?_, by decide⟩
      unfold validateRequerimiento
      rw [hfmt]
      simp [htext]
    · cases hf : s.formato
      · exact absurd hf hfmt
      · refine ⟨"Selecciona un archivo de imagen", ?_, by decide⟩
        unfold validateRequerimiento
        rw [hf]
        simp [hfile]
      · refine ⟨"Selecciona un archivo de audio", ?_, by decide⟩
        unfold validateRequerimiento
        rw [hf]
        simp [hfile]
  obtain ⟨msg, hv, hmsg⟩ := hval
  constructor
  · simp [handleSubmit, hv, hmsg]
  · by_cases hn : jsTrim s.nombre = ""
    · simp [handleSubmitV1, hn]
    · simp [handleSubmitV1, hn, hv, hmsg]

/-- Concrete instantiation of blank_input_blocks_submit. -/
theorem blank_input_witness :
    (wStateImage.formato ≠ InputFormat.text ∧ wStateImage.archivoBase64 = "") ∧
    (((handleSubmit wStateImage wRespFail wNow).2 = [] ∧
      (handleSubmit wStateImage wRespFail wNow).1.resultado = wStateImage.resultado ∧
      (handleSubmit wStateImage wRespFail wNow).1.error ≠ "") ∧
     ((handleSubmitV1 wStateImage wRespFail wNow).2 = [] ∧
      (handleSubmitV1 wStateImage wRespFail wNow).1.resultado = wStateImage.resultado ∧
      (handleSubmitV1 wStateImage wRespFail wNow).1.error ≠ "")) :=
  ⟨⟨by decide, rfl⟩,
   blank_input_blocks_submit wStateImage wRespFail wNow (Or.inr ⟨by decide, rfl⟩)⟩

/-- Claim C3: a quote submission receiving a non-2xx response displays
the mensaje field of the body when it is present and non-empty, and the
generic fallback string otherwise, rendering no result (both
revisions). -/
theorem non2xx_error_message (s : HomeState) (resp : CotizarHttpResponse) (now : String)
    (hok : resp.ok = false) (hval : ∃ r, validateRequerimiento s = Except.ok r) :
    ((∀ m, resp.mensaje = some m → m ≠ "" → (handleSubmit s resp now).1.error = m) ∧
     ((resp.mensaje = none ∨ resp.mensaje = some "") →
        (handleSubmit s resp now).1.error = "Error en la solicitud") ∧
     (handleSubmit s resp now).1.resultado = none) ∧
    (jsTrim s.nombre ≠ "" →
      ((∀ m, resp.mensaje = some m → m ≠ "" → (handleSubmitV1 s resp now).1.error = m) ∧
       ((resp.mensaje = none ∨ resp.mensaje = some "") →
          (handleSubmitV1 s resp now).1.error = "Error en la solicitud") ∧
       (handleSubmitV1 s resp now).1.resultado = none)) := by
  obtain ⟨r, hv⟩ := hval
  have h1 : ∀ m, resp.mensaje = some m → m ≠ "" → mensajeOrFallback resp.mensaje = m := by
    intro m hm hne
    rw [hm]
    simp [mensajeOrFallback, hne]
  have h2 : (resp.mensaje = none ∨ resp.mensaje = some "") →
      mensajeOrFallback resp.mensaje = "Error en la solicitud" := by
    rintro (hm | hm) <;> rw [hm] <;> simp [mensajeOrFallback]
  have hS : (handleSubmit s resp now).1.error = mensajeOrFallback resp.mensaje ∧
      (handleSubmit s resp now).1.resultado = none := by
    simp [handleSubmit, hv, hok]
  refine ⟨⟨fun m hm hne => hS.1.trans (h1 m hm hne), fun hm => hS.1.trans (h2 hm), hS.2⟩, ?_⟩
  intro hn
  have hn' : ¬ jsTrim s.nombre = "" := hn
  have hS1 : (handleSubmitV1 s resp now).1.error = mensajeOrFallback resp.mensaje ∧
      (handleSubmitV1 s resp now).1.resultado = none := by
    simp [handleSubmitV1, hn', hv, hok]
  exact ⟨fun m hm hne => hS1.1.trans (h1 m hm hne), fun hm => hS1.1.trans (h2 hm), hS1.2⟩

/-- Concrete instantiation of non2xx_error_message. -/
theorem non2xx_witness :
    wRespFail.ok = false ∧ validateRequerimiento wStateText = Except.ok "Necesito 5 sillas" ∧
    (handleSubmit wStateText wRespFail wNow).1.error = "Formato invalido" ∧
    (handleSubmit wStateText wRespFail wNow).1.resultado = none := by
  have h := non2xx_error_message wStateText wRespFail wNow rfl ⟨"Necesito 5 sillas", rfl⟩
  exact ⟨rfl, rfl, h.1.1 "Formato invalido" rfl (by decide), h.1.2.2⟩

/-- Claim C6: when the catalog fetch fails, the error goes to the
console only (one log entry): the user-visible error message is
unchanged, the catalog stays unset so the displayed list is empty, and
the loading indicator is cleared. -/
theorem fetchCatalogo_failure_silent (s : HomeState) (e : String) (h : s.catalogo = none) :
    (fetchCatalogo (Except.error e) s).1.error = s.error ∧
    (fetchCatalogo (Except.error e) s).1.catalogo = none ∧
    productosFiltradosOf (fetchCatalogo (Except.error e) s).1.catalogo
      (fetchCatalogo (Except.error e) s).1.categoriaActiva = [] ∧
    (fetchCatalogo (Except.error e) s).1.loadingCatalogo = false ∧
    (fetchCatalogo (Except.error e) s).2 = ["Error cargando catalogo:"] := by
  simp [fetchCatalogo, productosFiltradosOf, h]

/-- Concrete instantiation of fetchCatalogo_failure_silent. -/
theorem fetchCatalogo_witness :
    initState.catalogo = none ∧
    ((fetchCatalogo (Except.error "network error") initState).1.error = initState.error ∧
     (fetchCatalogo (Except.error "network error") initState).1.catalogo = none ∧
     productosFiltradosOf (fetchCatalogo (Except.error "network error") initState).1.catalogo
       (fetchCatalogo (Except.error "network error") initState).1.categoriaActiva = [] ∧
     (fetchCatalogo (Except.error "network error") initState).1.loadingCatalogo = false ∧
     (fetchCatalogo (Except.error "network error") initState).2 = ["Error cargando catalogo:"]) :=
  ⟨rfl, fetchCatalogo_failure_silent initState "network error" rfl⟩

/-- Claim C7: when microphone access is denied, startRecording surfaces
an error message and the recording state machine stays idle: the
recording flag remains false, no elapsed-timer is started and the chunk
sequence does not change. -/
theorem startRecording_denied_stays_idle (s : HomeState) (h : s.isRecording = false) :
    (startRecording false s).error =
      "No se pudo acceder al microfono. Verifica los permisos." ∧
    (startRecording false s).isRecording = false ∧
    (startRecording false s).intervalActive = s.intervalActive ∧
    (startRecording false s).audioChunks = s.audioChunks ∧
    (startRecording false s).recordingTime = s.recordingTime := by
  refine ⟨rfl, ?_, rfl, rfl, rfl⟩
  simpa [startRecording] using h

/-- Concrete instantiation of startRecording_denied_stays_idle. -/
theorem startRecording_witness :
    initState.isRecording = false ∧
    ((startRecording false initState).error =
       "No se pudo acceder al microfono. Verifica los permisos." ∧
     (startRecording false initState).isRecording = false ∧
     (startRecording false initState).intervalActive = initState.intervalActive ∧
     (startRecording false initState).audioChunks = initState.audioChunks ∧
     (startRecording false initState).recordingTime = initState.recordingTime) :=
  ⟨rfl, startRecording_denied_stays_idle initState rfl⟩

/-- Claim C8 counterexample: in the earlier revision (index.tsx), a
rasterization exception during PDF generation is not caught: at this
concrete input the handler lets the exception escape, so no
user-visible error message is produced, contradicting the claim that
the exception is caught and reported in every revision. -/
theorem downloadPDF_uncaught_v1 :
    handleDownloadPDFV1 true (Except.error "canvas exception") "2026-01-01" wStateResult =
      Except.error "canvas exception" := rfl

/-- Claim C8 (amended to the later revision): in part_000, when PDF
generation throws for a rendered quotation, the exception is caught,
the generic error message is shown, the stored quotation result is
unchanged and the generating flag is cleared. -/
theorem downloadPDF_failure_preserves (s : HomeState) (r : CotizacionResponse)
    (e today : String) (h : s.resultado = some r) :
    (handleDownloadPDF true (Except.error e) today s).1.error =
      "Error al generar el PDF. Intenta de nuevo." ∧
    (handleDownloadPDF true (Except.error e) today s).1.resultado = s.resultado ∧
    (handleDownloadPDF true (Except.error e) today s).1.generatingPDF = false ∧
    (handleDownloadPDF true (Except.error e) today s).2 = none := by
  simp [handleDownloadPDF, h]

/-- Concrete instantiation of downloadPDF_failure_preserves. -/
theorem downloadPDF_witness :
    wStateResult.resultado = some wQuote ∧
    ((handleDownloadPDF true (Except.error "canvas") "2026-01-01" wStateResult).1.error =
       "Error al generar el PDF. Intenta de nuevo." ∧
     (handleDownloadPDF true (Except.error "canvas") "2026-01-01" wStateResult).1.resultado =
       wStateResult.resultado ∧
     (handleDownloadPDF true (Except.error "canvas") "2026-01-01" wStateResult).1.generatingPDF =
       false ∧
     (handleDownloadPDF true (Except.error "canvas") "2026-01-01" wStateResult).2 = none) :=
  ⟨rfl, downloadPDF_failure_preserves wStateResult wQuote "canvas" "2026-01-01" rfl⟩

/-- Claim C10: in the later revision, every issued request body carries
non-empty nombre, email and ciudad, with "No indicado" substituted for
any empty field, and the requerimiento validation never consults the
name, so a name is never required for submission. -/
theorem submit_body_defaults (s : HomeState) (resp : CotizarHttpResponse) (now : String)
    (hval : ∃ r, validateRequerimiento s = Except.ok r) :
    (∃ b, (handleSubmit s resp now).2 = [b] ∧
      b.nombre = (if s.nombre = "" then "No indicado" else s.nombre) ∧ b.nombre ≠ "" ∧
      b.email = (if s.email = "" then "No indicado" else s.email) ∧ b.email ≠ "" ∧
      b.ciudad = (if s.ciudad = "" then "No indicado" else s.ciudad) ∧ b.ciudad ≠ "") ∧
    validateRequerimiento { s with nombre := "" } = validateRequerimiento s := by
  obtain ⟨r, hv⟩ := hval
  constructor
  · have hnom : (if s.nombre = "" then "No indicado" else s.nombre) ≠ "" := by
      by_cases hx : s.nombre = "" <;> simp [hx]
    have hemail : (if s.email = "" then "No indicado" else s.email) ≠ "" := by
      by_cases hx : s.email = "" <;> simp [hx]
    have hciudad : (if s.ciudad = "" then "No indicado" else s.ciudad) ≠ "" := by
      by_cases hx : s.ciudad = "" <;> simp [hx]
    cases hok : resp.ok <;> simp [handleSubmit, hv, hok, hnom, hemail, hciudad]
  · rfl

/-- Concrete instantiation of submit_body_defaults. -/
theorem submit_body_witness :
    validateRequerimiento wStateNoName = Except.ok "Necesito 5 sillas" ∧
    (∃ b, (handleSubmit wStateNoName wRespFail wNow).2 = [b] ∧
      b.nombre = (if wStateNoName.nombre = "" then "No indicado" else wStateNoName.nombre) ∧
      b.nombre ≠ "" ∧
      b.email = (if wStateNoName.email = "" then "No indicado" else wStateNoName.email) ∧
      b.email ≠ "" ∧
      b.ciudad = (if wStateNoName.ciudad = "" then "No indicado" else wStateNoName.ciudad) ∧
      b.ciudad ≠ "") :=
  ⟨rfl, (submit_body_defaults wStateNoName wRespFail wNow ⟨"Necesito 5 sillas", rfl⟩).1⟩
